import Mathlib

/-!
Shallow embedding of the 4D-STAR/libconfig configuration core.

The embedding covers:
* `utils::extract_error_key` from `registry.h` (the error-enrichment helper),
  modelled over `List Char` buffers with the byte offset as a `Nat`;
* the `reflect-cpp` based `Config<T>` session from `base.h` (`load`, `save`,
  lifecycle state, root-name policy), with the filesystem and the external
  TOML parser/serializer abstracted: `load` takes the existence check result
  and the parser outcome (`Option` of the parsed root-wrapper mapping, given
  as the entry list of the `std::unordered_map` in iteration order) as
  arguments, and `save` returns the abstract wrapper document it serializes;
* the glaze-based `Config<T>` from `registry.h` (its `load` has no
  already-loaded check);
* the `register_as_cli` recursive CLI flattening from `cli.h`, over an
  explicit schema tree.
-/

set_option autoImplicit false

namespace LibConfig

/-! ## Error enrichment: `utils::extract_error_key` (registry.h, lines 69-104) -/

/-- C `isspace` in the default locale: space, \t, \n, \v, \f, \r. -/
def isspace (c : Char) : Bool :=
  c == ' ' || c == '\t' || c == '\n' || c == '\x0b' || c == '\x0c' || c == '\r'

/-- The backward scan `while (line_start > 0 && buffer[line_start-1] != '\n') line_start--;`
starting from the byte offset. -/
def lineStart (buffer : List Char) : Nat → Nat
  | 0 => 0
  | i + 1 => if buffer.get? i = some '\n' then i + 1 else lineStart buffer i

/-- The forward scan
`while (line_end < buffer.size() && buffer[line_end] != '\n' && buffer[line_end] != '\r') line_end++;`
with an explicit fuel counter: each iteration increments `i`, so
`buffer.length - i` iterations always suffice (the loop stops at
`i = buffer.length` at the latest, exactly when the fuel runs out). -/
def lineEndAux (buffer : List Char) : Nat → Nat → Nat
  | 0, i => i
  | fuel + 1, i =>
      match buffer.get? i with
      | none => i
      | some c => if c = '\n' ∨ c = '\r' then i else lineEndAux buffer fuel (i + 1)

def lineEnd (buffer : List Char) (i : Nat) : Nat :=
  lineEndAux buffer (buffer.length - i) i

/-- `buffer.substr(line_start, line_end - line_start)`: the line around the offset. -/
def lineOf (buffer : List Char) (location : Nat) : List Char :=
  let ls := lineStart buffer location
  let le := lineEnd buffer location
  (buffer.drop ls).take (le - ls)

/-- `line.find_first_of("=:")`: index of the first `=` or `:` in the line. -/
def findSep : List Char → Option Nat
  | [] => none
  | c :: rest =>
      if c == '=' || c == ':' then some 0
      else (findSep rest).map (· + 1)

/-- The `while (!key_part.empty() && std::isspace(key_part.back())) key_part.pop_back();` loop. -/
def rtrim (l : List Char) : List Char :=
  (l.reverse.dropWhile isspace).reverse

/-- The body of `extract_error_key` after the line has been cut out of the buffer:
split on the first `=`/`:`, trim the key part on both sides, and fall back to the
whole (uncut, untrimmed) line when there is no separator or no non-space key text. -/
def extractFromLine (line : List Char) : String :=
  match findSep line with
  | some sep =>
      let key_part := line.take sep
      let k := (rtrim key_part).dropWhile isspace
      if k.isEmpty then String.mk line else String.mk k
  | none => String.mk line

/-- `utils::extract_error_key(buffer, pe)` with `pe.location` as a `Nat`:
returns `"unknown"` when the offset is at or past the end of the buffer, and
otherwise processes the line around the offset. -/
def extract_error_key (buffer : List Char) (location : Nat) : String :=
  if buffer.length ≤ location then "unknown"
  else extractFromLine (lineOf buffer location)

/-! ## The reflect-cpp `Config<T>` session (base.h) -/

/-- `enum class RootNameLoadPolicy` (base.h, lines 46-55). -/
inductive RootNameLoadPolicy where
  | FROM_FILE
  | KEEP_CURRENT
deriving DecidableEq, Repr

/-- `enum class ConfigState` (base.h, lines 60-69). -/
inductive ConfigState where
  | DEFAULT
  | LOADED_FROM_FILE
deriving DecidableEq, Repr

/-- The member state of `Config<T>` (base.h, lines 336-341), with its default
member initializers. -/
structure Config (T : Type) where
  m_content : T
  m_root_name : String := "main"
  m_state : ConfigState := ConfigState.DEFAULT
  m_root_name_load_policy : RootNameLoadPolicy := RootNameLoadPolicy.KEEP_CURRENT
deriving DecidableEq, Repr

/-- The exception hierarchy of `exceptions.h`. -/
inductive ConfigError where
  | ConfigSaveError (msg : String)
  | ConfigLoadError (msg : String)
  | ConfigParseError (msg : String)
  | SchemaSaveError (msg : String)
deriving DecidableEq, Repr

/-- Outcome of `Config<T>::load`. An exception leaves the object in the state it
had when the throw happened (`error` carries that object); dereferencing
`begin()` of an empty `unordered_map` is C++ undefined behavior and gets its own
marker. -/
inductive LoadResult (T : Type) where
  | ok (cfg : Config T)
  | error (e : ConfigError) (cfg : Config T)
  | undefinedBehavior
deriving DecidableEq, Repr

def alreadyLoadedMsg : String :=
  "Config has already been loaded from file. Reloading is not supported."

def fileNotExistMsg (path : String) : String :=
  "Config file does not exist: " ++ path

def parseFailMsg (path : String) : String :=
  "Failed to load config from file: " ++ path

def rootMismatchMsg (current loaded : String) : String :=
  "Root name mismatch when loading config from file. Current root name is \x27"
    ++ current ++ "\x27, but file root name is \x27" ++ loaded
    ++ "\x27. If you want to use the root name from the file, set the root name load policy to FROM_FILE using set_root_name_load_policy()."

/-- `Config<T>::load(path)` (base.h, lines 249-285), with the two external
collaborators abstracted: `fileExists` is the result of
`std::filesystem::exists(path)` and `parseResult` the outcome of
`rfl::toml::load` — `none` for a parse failure, otherwise the entry list of the
parsed `unordered_map<string, T>` in iteration order (keys pairwise distinct).
`begin()->first` is the key of the head entry; since `unordered_map` keys are
unique, `result.value().at(loaded_root_name)` is the head entry's value.
No member is assigned before the last `throw`, so every error carries the
unchanged object. -/
def Config.load {T : Type} (cfg : Config T) (path : String) (fileExists : Bool)
    (parseResult : Option (List (String × T))) : LoadResult T :=
  if cfg.m_state = ConfigState.LOADED_FROM_FILE then
    LoadResult.error (ConfigError.ConfigLoadError alreadyLoadedMsg) cfg
  else if fileExists = false then
    LoadResult.error (ConfigError.ConfigLoadError (fileNotExistMsg path)) cfg
  else
    match parseResult with
    | none =>
        LoadResult.error (ConfigError.ConfigParseError (parseFailMsg path)) cfg
    | some [] => LoadResult.undefinedBehavior
    | some ((loaded_root_name, v) :: _) =>
        if cfg.m_root_name_load_policy = RootNameLoadPolicy.KEEP_CURRENT
            ∧ cfg.m_root_name ≠ loaded_root_name then
          LoadResult.error
            (ConfigError.ConfigLoadError (rootMismatchMsg cfg.m_root_name loaded_root_name))
            cfg
        else
          LoadResult.ok
            { cfg with
              m_root_name := loaded_root_name
              m_content := v
              m_state := ConfigState.LOADED_FROM_FILE }

def saveOpenFailMsg (path : String) : String :=
  "Failed to open file for writing config: " ++ path

/-- `Config<T>::save(path)` (base.h, lines 164-179): a `const` member — it
builds the single-entry wrapper `{m_root_name: m_content}`, serializes it, and
throws `ConfigSaveError` when the output stream cannot be opened. The first
component is the object after the call (no member is mutated); the second is
the wrapper document handed to the external serializer, or the error. -/
def Config.save {T : Type} (cfg : Config T) (path : String) (canOpenFile : Bool) :
    Config T × Except ConfigError (List (String × T)) :=
  let wrapper : List (String × T) := [(cfg.m_root_name, cfg.m_content)]
  if canOpenFile then (cfg, Except.ok wrapper)
  else (cfg, Except.error (ConfigError.ConfigSaveError (saveOpenFailMsg path)))

/-! ## The glaze-based `Config<T>` (registry.h, lines 113-201) -/

/-- Member state of the glaze-based `Config<T>`: content and lifecycle state
only (no root name, no policy). -/
structure GlazeConfig (T : Type) where
  m_content : T
  m_state : ConfigState := ConfigState.DEFAULT
deriving DecidableEq, Repr

/-- Outcome of the glaze-based `Config<T>::load`. -/
inductive GlazeLoadResult (T : Type) where
  | ok (cfg : GlazeConfig T)
  | error (e : ConfigError) (cfg : GlazeConfig T)
deriving DecidableEq, Repr

def glazeReadFailMsg (path : String) : String :=
  "Config::load: Failed to load config from " ++ path ++ " with glaze error "

def glazeParseFailMsg (path key : String) : String :=
  "Config::load: Failed to parse config from " ++ path ++ " with glaze error (Key: "
    ++ key ++ ") "

/-- The glaze-based `Config<T>::load(path)` (registry.h, lines 139-167).
`readResult` abstracts `glz::file_to_buffer` (`none` = I/O error), and
`parseResult` abstracts the strict in-place `glz::read` into `m_content`
(`none` = parse error, with `partialContentOnParseError` the content glaze left
behind after the failed in-place read and `errorLocation` the error context
offset used by `extract_error_key`). Note: there is no already-loaded check —
the state field is read nowhere in this function. -/
def GlazeConfig.load {T : Type} (cfg : GlazeConfig T) (path : String)
    (readResult : Option (List Char)) (parseResult : Option T)
    (partialContentOnParseError : T) (errorLocation : Nat) : GlazeLoadResult T :=
  match readResult with
  | none =>
      GlazeLoadResult.error (ConfigError.ConfigLoadError (glazeReadFailMsg path)) cfg
  | some buffer =>
      match parseResult with
      | none =>
          GlazeLoadResult.error
            (ConfigError.ConfigParseError
              (glazeParseFailMsg path (extract_error_key buffer errorLocation)))
            { cfg with m_content := partialContentOnParseError }
      | some v =>
          GlazeLoadResult.ok { m_content := v, m_state := ConfigState.LOADED_FROM_FILE }

/-! ## CLI flattening: `register_as_cli` (cli.h, lines 113-143) -/

/- A schema field type as seen by the CLI traversal: either a leaf
(scalar/string/array, registered as one option) or a nested schema-like record
(recursed into). `SchemaFields` is the declared field list of a record. -/
mutual
inductive SchemaTree where
  | leaf : SchemaTree
  | record : SchemaFields → SchemaTree
inductive SchemaFields where
  | nil : SchemaFields
  | cons : String → SchemaTree → SchemaFields → SchemaFields
end

/-- `field_name = prefix.empty() ? name : prefix + "." + name`. -/
def composeFieldName (pfx name : String) : String :=
  if pfx = "" then name else pfx ++ "." ++ name

/- The recursive body of `register_as_cli`: `registerFields fs pfx` is the list
of option names registered by iterating the reflected field view of a record
whose fields are `fs` under the accumulated dotted name `pfx`; for each field it
composes `field_name`, recurses when the field is itself a config schema, and
otherwise registers the single option `"--" ++ field_name`. -/
mutual
def register_as_cli : SchemaTree → String → List String
  | SchemaTree.leaf, field_name => ["--" ++ field_name]
  | SchemaTree.record fs, pfx => registerFields fs pfx
def registerFields : SchemaFields → String → List String
  | SchemaFields.nil, _ => []
  | SchemaFields.cons name t rest, pfx =>
      register_as_cli t (composeFieldName pfx name) ++ registerFields rest pfx
end

/- Specification-side definition, following the words of the CLI-flattening
claim: the dotted paths of the leaf fields of a schema tree, in declared field
order, each obtained by dot-joining the nesting prefix with the field name. -/
mutual
def leafPathsTree : SchemaTree → String → List String
  | SchemaTree.leaf, p => [p]
  | SchemaTree.record fs, p => leafPathsFields fs p
def leafPathsFields : SchemaFields → String → List String
  | SchemaFields.nil, _ => []
  | SchemaFields.cons name t rest, p =>
      leafPathsTree t (composeFieldName p name) ++ leafPathsFields rest p
end

/-- The schema `{a: int, b: {c: string}}` from the spec's CLI-flattening test. -/
def exampleSchemaFields : SchemaFields :=
  SchemaFields.cons "a" SchemaTree.leaf
    (SchemaFields.cons "b"
      (SchemaTree.record (SchemaFields.cons "c" SchemaTree.leaf SchemaFields.nil))
      SchemaFields.nil)

/-! ## A concrete schema instantiation for witnesses -/

/-- A small concrete aggregate schema used to instantiate the type parameter
`T` in concrete witnesses and counterexamples. -/
structure DemoSchema where
  alpha : Int
  beta : String
deriving DecidableEq, Repr

def demoA : DemoSchema := { alpha := 1, beta := "x" }

def demoB : DemoSchema := { alpha := 2, beta := "y" }

/-! ## Helper lemmas -/

theorem mem_of_mem_rtrim {x : Char} {l : List Char} (hx : x ∈ rtrim l) : x ∈ l := by
  unfold rtrim at hx
  have h1 : x ∈ l.reverse.dropWhile isspace := List.mem_reverse.mp hx
  exact List.mem_reverse.mp ((List.dropWhile_sublist isspace).mem h1)

theorem dropWhile_rtrim_eq_nil {l : List Char} (h : l.all isspace) :
    (rtrim l).dropWhile isspace = [] := by
  rw [List.dropWhile_eq_nil_iff]
  intro x hx
  exact List.all_eq_true.mp h x (mem_of_mem_rtrim hx)

mutual
theorem registerTree_eq_leafPaths : ∀ (t : SchemaTree) (p : String),
    register_as_cli t p = (leafPathsTree t p).map (fun s => "--" ++ s)
  | SchemaTree.leaf, p => by
      simp [register_as_cli, leafPathsTree]
  | SchemaTree.record fs, p => by
      simp [register_as_cli, leafPathsTree, registerFields_eq_leafPaths fs p]
theorem registerFields_eq_leafPaths : ∀ (fs : SchemaFields) (p : String),
    registerFields fs p = (leafPathsFields fs p).map (fun s => "--" ++ s)
  | SchemaFields.nil, p => by
      simp [registerFields, leafPathsFields]
  | SchemaFields.cons n t rest, p => by
      simp [registerFields, leafPathsFields,
        registerTree_eq_leafPaths t (composeFieldName p n),
        registerFields_eq_leafPaths rest p]
end

/-! ## Claim theorems -/

/-- Claim C1, counterexample: a parsed root-wrapper mapping with two top-level
entries does not make `load` fail with a load error — `load` silently adopts
the first entry of the mapping and succeeds; and an empty parsed mapping does
not produce a load error either, it dereferences `begin()` of an empty map
(undefined behavior). -/
theorem load_two_entries_succeeds :
    Config.load (T := DemoSchema) { m_content := demoA } "config.toml" true
      (some [("main", demoB), ("other", demoA)])
      = LoadResult.ok
        { m_content := demoB
          m_root_name := "main"
          m_state := ConfigState.LOADED_FROM_FILE
          m_root_name_load_policy := RootNameLoadPolicy.KEEP_CURRENT }
    ∧ Config.load (T := DemoSchema) { m_content := demoA } "config.toml" true
        (some []) = LoadResult.undefinedBehavior := by
  decide

/-- Claim C1, amended: `Config::load` performs no entry-count check on the
parsed root-wrapper mapping. With two or more entries it behaves exactly as if
only the first entry were present (the remaining entries are silently ignored,
never an error); with zero entries it dereferences `begin()` of an empty
`unordered_map`, which is undefined behavior, not a load error. -/
theorem load_ignores_entry_count {T : Type} (cfg : Config T) (path : String)
    (k : String) (v : T) (rest : List (String × T)) :
    Config.load cfg path true (some ((k, v) :: rest))
      = Config.load cfg path true (some [(k, v)])
    ∧ (cfg.m_state = ConfigState.DEFAULT →
        Config.load cfg path true (some []) = LoadResult.undefinedBehavior) := by
  constructor
  · unfold Config.load
    rfl
  · intro h
    unfold Config.load
    rw [h]
    rfl

/-- Witness for `load_ignores_entry_count` at a concrete input. -/
theorem load_ignores_entry_count_witness :
    Config.load (T := DemoSchema) { m_content := demoA } "config.toml" true
        (some [("main", demoB), ("other", demoA)])
      = Config.load { m_content := demoA } "config.toml" true (some [("main", demoB)])
    ∧ Config.load (T := DemoSchema) { m_content := demoA } "config.toml" true
        (some []) = LoadResult.undefinedBehavior :=
  ⟨(load_ignores_entry_count { m_content := demoA } "config.toml" "main" demoB
      [("other", demoA)]).1,
   (load_ignores_entry_count { m_content := demoA } "config.toml" "main" demoB
      [("other", demoA)]).2 rfl⟩

/-- Claim C2: whenever `Config::load` fails — already loaded, missing file,
parse failure, or root-name mismatch — the session object after the failure is
exactly the one from before the call: live value, root name, lifecycle state
and root-name policy are all unchanged (no member is assigned before the last
`throw` in the source). -/
theorem load_failure_preserves_session {T : Type} (cfg : Config T) (path : String)
    (fileExists : Bool) (parseResult : Option (List (String × T)))
    (e : ConfigError) (cfg2 : Config T)
    (h : Config.load cfg path fileExists parseResult = LoadResult.error e cfg2) :
    cfg2 = cfg := by
  unfold Config.load at h
  split at h
  · exact ((LoadResult.error.injEq _ _ _ _).mp h).2.symm
  · split at h
    · exact ((LoadResult.error.injEq _ _ _ _).mp h).2.symm
    · split at h
      · exact ((LoadResult.error.injEq _ _ _ _).mp h).2.symm
      · exact absurd h (by simp)
      · split at h
        · exact ((LoadResult.error.injEq _ _ _ _).mp h).2.symm
        · exact absurd h (by simp)

/-- Witness for `load_failure_preserves_session`: a concrete missing-file
failure leaves the concrete session unchanged. -/
theorem load_failure_preserves_session_witness :
    Config.load (T := DemoSchema) { m_content := demoA } "gone.toml" false none
      = LoadResult.error
          (ConfigError.ConfigLoadError (fileNotExistMsg "gone.toml"))
          { m_content := demoA }
    ∧ ({ m_content := demoA } : Config DemoSchema) = { m_content := demoA } :=
  ⟨by decide,
   load_failure_preserves_session { m_content := demoA } "gone.toml" false none
     (ConfigError.ConfigLoadError (fileNotExistMsg "gone.toml"))
     { m_content := demoA } (by decide)⟩

/-- Claim C3, counterexample: the glaze-based `Config::load` (registry.h) has
no already-loaded check. On a session whose state is already
`LOADED_FROM_FILE`, a second `load` call with a readable, parseable file does
not fail with the already-loaded error — it succeeds and replaces the live
value. -/
theorem glaze_second_load_succeeds :
    GlazeConfig.load (T := DemoSchema)
        { m_content := demoA, m_state := ConfigState.LOADED_FROM_FILE }
        "config.toml" (some ("alpha = 2".toList)) (some demoB) demoA 0
      = GlazeLoadResult.ok
          { m_content := demoB, m_state := ConfigState.LOADED_FROM_FILE }
    ∧ demoB ≠ demoA := by
  decide

/-- Claim C3, amended: the reflect-cpp `Config<T>` (base.h) is one-shot — on a
session in state `LOADED_FROM_FILE`, `load` fails with the already-loaded load
error for any path, parser outcome and existence result, leaving the session
unchanged, and any successful `load` starts from state `DEFAULT` and ends in
state `LOADED_FROM_FILE` (so the state transitions at most once and never
back). The glaze-based `Config<T>` (registry.h) performs no such check: a
second `load` re-parses and overwrites the live value. -/
theorem config_load_one_shot {T : Type} (cfg : Config T) (path : String)
    (fileExists : Bool) (parseResult : Option (List (String × T))) :
    (cfg.m_state = ConfigState.LOADED_FROM_FILE →
      Config.load cfg path fileExists parseResult
        = LoadResult.error (ConfigError.ConfigLoadError alreadyLoadedMsg) cfg)
    ∧ (∀ cfg2 : Config T,
        Config.load cfg path fileExists parseResult = LoadResult.ok cfg2 →
          cfg.m_state = ConfigState.DEFAULT
          ∧ cfg2.m_state = ConfigState.LOADED_FROM_FILE) := by
  constructor
  · intro h
    unfold Config.load
    rw [h]
    rfl
  · intro cfg2 h
    cases hs : cfg.m_state with
    | LOADED_FROM_FILE =>
        unfold Config.load at h
        rw [hs] at h
        exact absurd h (by simp)
    | DEFAULT =>
        refine ⟨rfl, ?_⟩
        unfold Config.load at h
        split at h
        · exact absurd h (by simp)
        · split at h
          · exact absurd h (by simp)
          · split at h
            · exact absurd h (by simp)
            · exact absurd h (by simp)
            · split at h
              · exact absurd h (by simp)
              · rw [← ((LoadResult.ok.injEq _ _).mp h)]

/-- Witness for `config_load_one_shot` at a concrete input: a session already
in state `LOADED_FROM_FILE` rejects a second load of an existing, parseable
file. -/
theorem config_load_one_shot_witness :
    ({ m_content := demoA, m_state := ConfigState.LOADED_FROM_FILE } :
        Config DemoSchema).m_state = ConfigState.LOADED_FROM_FILE
    ∧ Config.load (T := DemoSchema)
        { m_content := demoA, m_state := ConfigState.LOADED_FROM_FILE }
        "config.toml" true (some [("main", demoB)])
      = LoadResult.error (ConfigError.ConfigLoadError alreadyLoadedMsg)
          { m_content := demoA, m_state := ConfigState.LOADED_FROM_FILE } :=
  ⟨rfl,
   (config_load_one_shot
      { m_content := demoA, m_state := ConfigState.LOADED_FROM_FILE }
      "config.toml" true (some [("main", demoB)])).1 rfl⟩

set_option maxRecDepth 8192 in
/-- Claim C4: for a session with root name `"main"` and policy `KEEP_CURRENT`,
loading a file whose single root key is `"other"` fails with the root-mismatch
load error (whose message carries both names, via `rootMismatchMsg`) and the
session — in particular the live value — is unchanged; the same load under
policy `FROM_FILE` succeeds, the root name becomes `"other"` and the parsed
value is adopted. -/
theorem root_mismatch_policy_behaviour :
    Config.load (T := DemoSchema) { m_content := demoA } "config.toml" true
        (some [("other", demoB)])
      = LoadResult.error
          (ConfigError.ConfigLoadError (rootMismatchMsg "main" "other"))
          { m_content := demoA }
    ∧ Config.load (T := DemoSchema)
        { m_content := demoA,
          m_root_name_load_policy := RootNameLoadPolicy.FROM_FILE }
        "config.toml" true (some [("other", demoB)])
      = LoadResult.ok
          { m_content := demoB
            m_root_name := "other"
            m_state := ConfigState.LOADED_FROM_FILE
            m_root_name_load_policy := RootNameLoadPolicy.FROM_FILE } := by
  refine ⟨?_, ?_⟩ <;> decide

/-- Claim C5, counterexample: for an offset inside a line with no `=`/`:`
separator, `extract_error_key` does not return the trimmed line — it returns
the line exactly as cut from the buffer, surrounding whitespace included. -/
theorem extract_no_separator_keeps_whitespace :
    extract_error_key (" abc ".toList) 2 ≠ "abc"
    ∧ extract_error_key (" abc ".toList) 2 = " abc " := by
  decide

/-- Claim C5, amended: for every buffer and offset (below the buffer end) whose
surrounding line is `gravity = 10`, `extract_error_key` returns `gravity` (the
text left of the first `=`/`:` separator with surrounding whitespace trimmed);
for an offset whose line contains no `=`/`:` separator it returns that whole
line exactly as it appears in the buffer (not trimmed). The function is a
total function of the buffer and offset, and an extraction that finds no
usable key degrades to the raw line or `"unknown"`, never affecting the parse
outcome itself (the parse result is fixed before `extract_error_key` is
consulted for the message). -/
theorem extract_key_of_line (buffer : List Char) (loc : Nat)
    (h : loc < buffer.length) :
    (lineOf buffer loc = "gravity = 10".toList →
      extract_error_key buffer loc = "gravity")
    ∧ (findSep (lineOf buffer loc) = none →
      extract_error_key buffer loc = String.mk (lineOf buffer loc)) := by
  have hnot : ¬ buffer.length ≤ loc := Nat.not_le.mpr h
  constructor
  · intro hl
    unfold extract_error_key
    rw [if_neg hnot, hl]
    decide
  · intro hsep
    unfold extract_error_key extractFromLine
    rw [if_neg hnot, hsep]

/-- Witness for `extract_key_of_line`: the buffer `a:1\ngravity = 10\nb:2`
with an offset inside the middle line yields the key `gravity`, and a
separator-free buffer yields its own single line. -/
theorem extract_key_of_line_witness :
    extract_error_key ("a:1\ngravity = 10\nb:2".toList) 7 = "gravity"
    ∧ extract_error_key ("no separator here".toList) 4
        = String.mk (lineOf ("no separator here".toList) 4) :=
  ⟨(extract_key_of_line ("a:1\ngravity = 10\nb:2".toList) 7 (by decide)).1
      (by decide),
   (extract_key_of_line ("no separator here".toList) 4 (by decide)).2
      (by decide)⟩

/-- Claim C6: saving a session's value `v` under its root name and loading the
resulting single-entry wrapper document into a fresh session (state `DEFAULT`,
policy `KEEP_CURRENT`, root name equal to the saved root name) succeeds and
adopts a live value structurally equal to `v`. The external TOML
serializer/parser pair is abstracted as the identity on the wrapper document,
as the spec treats it as an external collaborator. -/
theorem save_load_round_trip {T : Type} (saved fresh : Config T)
    (path path2 : String) (doc : List (String × T))
    (hstate : fresh.m_state = ConfigState.DEFAULT)
    (_hpol : fresh.m_root_name_load_policy = RootNameLoadPolicy.KEEP_CURRENT)
    (hroot : fresh.m_root_name = saved.m_root_name)
    (hdoc : (Config.save saved path true).2 = Except.ok doc) :
    Config.load fresh path2 true (some doc)
      = LoadResult.ok
          { fresh with
            m_content := saved.m_content
            m_root_name := saved.m_root_name
            m_state := ConfigState.LOADED_FROM_FILE } := by
  have hdoc2 : doc = [(saved.m_root_name, saved.m_content)] := by
    unfold Config.save at hdoc
    simp at hdoc
    exact hdoc.symm
  subst hdoc2
  simp [Config.load, hstate, hroot]

/-- Witness for `save_load_round_trip` at a concrete saved value. -/
theorem save_load_round_trip_witness :
    (({ m_content := demoB } : Config DemoSchema).m_state = ConfigState.DEFAULT)
    ∧ Config.load (T := DemoSchema) { m_content := demoB } "out.toml" true
        (some [("main", demoA)])
      = LoadResult.ok
          { m_content := demoA
            m_root_name := "main"
            m_state := ConfigState.LOADED_FROM_FILE
            m_root_name_load_policy := RootNameLoadPolicy.KEEP_CURRENT } :=
  ⟨rfl,
   save_load_round_trip { m_content := demoA } { m_content := demoB }
     "out.toml" "out.toml" [("main", demoA)] rfl rfl rfl rfl⟩

/-- Claim C7: on a session in state `DEFAULT`, loading a path that does not
resolve to an existing file fails with the file-does-not-exist `LoadError`,
leaves the session unchanged, and the outcome is the same for every possible
parser result — the parser is never consulted (the existence check strictly
precedes parsing in the source). -/
theorem load_missing_file {T : Type} (cfg : Config T) (path : String)
    (parseResult otherParseResult : Option (List (String × T)))
    (h : cfg.m_state = ConfigState.DEFAULT) :
    Config.load cfg path false parseResult
      = LoadResult.error
          (ConfigError.ConfigLoadError (fileNotExistMsg path)) cfg
    ∧ Config.load cfg path false parseResult
      = Config.load cfg path false otherParseResult := by
  unfold Config.load
  rw [h]
  exact ⟨rfl, rfl⟩

/-- Witness for `load_missing_file` at a concrete session and path. -/
theorem load_missing_file_witness :
    (({ m_content := demoA } : Config DemoSchema).m_state = ConfigState.DEFAULT)
    ∧ Config.load (T := DemoSchema) { m_content := demoA } "missing.toml" false
        (some [("main", demoB)])
      = LoadResult.error
          (ConfigError.ConfigLoadError (fileNotExistMsg "missing.toml"))
          { m_content := demoA } :=
  ⟨rfl,
   (load_missing_file { m_content := demoA } "missing.toml"
      (some [("main", demoB)]) none rfl).1⟩

/-- Claim C8: the CLI flattening traversal registers, for every leaf field,
exactly one option, named `--` followed by the dot-join of the nesting prefix
with the field name (with an empty prefix giving the bare field name), and
recurses into schema-like record fields; in particular, for the schema
`{a: int, b: {c: string}}` the registered flag list is exactly
`["--a", "--b.c"]`. -/
theorem cli_flattening_registers_leaves :
    (∀ (fs : SchemaFields) (pfx : String),
      registerFields fs pfx
        = (leafPathsFields fs pfx).map (fun s => "--" ++ s))
    ∧ registerFields exampleSchemaFields "" = ["--a", "--b.c"] :=
  ⟨fun fs pfx => registerFields_eq_leafPaths fs pfx, by decide⟩

/-- Claim C9: `Config::save` is a `const` member — whether it succeeds or
fails with the save error, the session after the call (first component of the
result) is exactly the session before the call: live value, root name,
lifecycle state and root-name policy are unchanged. -/
theorem save_leaves_session_unchanged {T : Type} (cfg : Config T)
    (path : String) (canOpenFile : Bool) :
    (Config.save cfg path canOpenFile).1 = cfg := by
  unfold Config.save
  cases canOpenFile <;> rfl

/-- Claim C10: `extract_error_key` is a total function of the buffer and
offset. An offset at or past the end of the buffer returns exactly
`"unknown"`; and when the offset's line contains a `=`/`:` separator but the
text before the first separator is empty or entirely whitespace, the whole
line — untrimmed, separator and value included — is returned rather than an
empty key. -/
theorem extract_total_and_degrades (buffer : List Char) (loc : Nat) :
    (buffer.length ≤ loc → extract_error_key buffer loc = "unknown")
    ∧ (∀ sep : Nat, loc < buffer.length →
        findSep (lineOf buffer loc) = some sep →
        ((lineOf buffer loc).take sep).all isspace →
        extract_error_key buffer loc = String.mk (lineOf buffer loc)) := by
  constructor
  · intro h
    unfold extract_error_key
    rw [if_pos h]
  · intro sep h hsep hsp
    unfold extract_error_key extractFromLine
    rw [if_neg (Nat.not_le.mpr h), hsep]
    simp [dropWhile_rtrim_eq_nil hsp]

/-- Witness for `extract_total_and_degrades`: an out-of-range offset on a
one-character buffer gives `"unknown"`, and an offset inside the line `  = 5`
(whitespace-only key part) gives the whole untrimmed line back. -/
theorem extract_total_and_degrades_witness :
    extract_error_key ("x".toList) 5 = "unknown"
    ∧ extract_error_key ("  = 5".toList) 1 = "  = 5" :=
  ⟨(extract_total_and_degrades ("x".toList) 5).1 (by decide),
   (extract_total_and_degrades ("  = 5".toList) 1).2 2 (by decide) (by decide)
     (by decide)⟩

end LibConfig
